import Mathlib

/-!
# Read-receipts plugin: the HTTP dispatch surface of `server/api.go`

A shallow embedding of the three functions of `server/api.go`
(`Plugin.ServeHTTP`, `Plugin.MattermostAuthorizationRequired`,
`Plugin.HelloWorld`) together with the parts of the Go libraries they call:

* `net/http`: `Header.Get/Set/Del`, the `ResponseWriter` contract
  (`Header`, `WriteHeader`, `Write`), `http.Error`, `http.NotFound`;
* `net/url`: `Values.Get`;
* `encoding/json`: `json.Marshal` at the type `map[string]bool` with the one key `read`;
* `github.com/gorilla/mux` (v1.8): `Router.Use`, `PathPrefix`, `Subrouter`, `HandleFunc`,
  `Methods`, `Route.Match`, `Router.Match`, `Router.ServeHTTP`, for templates without
  variables.

The read-state service (`p.markRead`, `p.isRead`) lives in another file of the
plugin; it is a parameter of the development, acting on an abstract store.
Stateful code is written in state-passing style over `State`.
-/

set_option autoImplicit false

namespace ReadReceipts

/-! ## net/http: headers -/

/-- The Go type `http.Header` (and `url.Values`): a map from a key to its list of values. -/
abbrev Header := List (String × List String)

/-- The token bytes of RFC 7230, by character code (`textproto.validHeaderFieldByte`). -/
def validHeaderFieldByte (c : Char) : Bool :=
  c.isAlphanum || [33, 35, 36, 37, 38, 39, 42, 43, 45, 46, 94, 95, 96, 124, 126].contains c.toNat

/-- The letter-case loop of `textproto.canonicalMIMEHeaderKey`: the first letter and every
letter after a hyphen is upper-cased, every other letter is lower-cased. -/
def canonicalLoop : Bool → List Char → List Char
  | _, [] => []
  | upper, c :: cs =>
    (if upper then c.toUpper else c.toLower) :: canonicalLoop (c == '-') cs

/-- The Go function `textproto.CanonicalMIMEHeaderKey`: a key with a byte that is not a token
byte is returned unchanged. -/
def CanonicalMIMEHeaderKey (s : String) : String :=
  if s.data.all validHeaderFieldByte then String.mk (canonicalLoop true s.data) else s

/-- Map lookup `m[key]`: the values stored under `key`, the nil slice when there are none. -/
def lookupValues (key : String) : Header → List String
  | [] => []
  | (k, vs) :: rest => if k = key then vs else lookupValues key rest

/-- The Go method `url.Values.Get`: the first value stored under `key`, or the empty
string; the key is used as it is. -/
def Values.Get (v : Header) (key : String) : String :=
  match lookupValues key v with
  | [] => ""
  | x :: _ => x

/-- The Go method `http.Header.Get`: the first value stored under the canonical form of `key`,
or the empty string. -/
def Header.Get (h : Header) (key : String) : String :=
  Values.Get h (CanonicalMIMEHeaderKey key)

/-- The Go method `http.Header.Del`: removes the entry of the canonical form of `key`. -/
def Header.Del (h : Header) (key : String) : Header :=
  h.filter (fun kv => kv.1 != CanonicalMIMEHeaderKey key)

/-- The Go method `http.Header.Set`: the entry of the canonical form of `key` becomes the
single value `value`. -/
def Header.Set (h : Header) (key value : String) : Header :=
  (CanonicalMIMEHeaderKey key, [value]) :: Header.Del h key

/-! ## net/http: the response writer -/

/-- A call made on the response writer. -/
inductive WriterOp where
  | writeHeader (code : Nat)
  | write (b : String)
  deriving DecidableEq, Repr

/-- The contract of the Go interface `http.ResponseWriter`.  `header` is the map returned by
`w.Header()`; `sent` is the status code and the headers of the response once the header has
been written (changing `header` afterwards has no effect on them); `body` is the bytes
written so far; `ops` records every `WriteHeader` and `Write` call in order; `writeErr` is the
error `Write` returns when the connection is broken. -/
structure ResponseWriter where
  header : Header
  sent : Option (Nat × Header)
  body : String
  ops : List WriterOp
  writeErr : Option String
  deriving DecidableEq, Repr

namespace ResponseWriter

/-- A writer on which nothing has been set, sent or written, over a healthy connection. -/
def fresh : ResponseWriter :=
  { header := [], sent := none, body := "", ops := [], writeErr := none }

/-- The status code of the response, once the header has been written. -/
def status (w : ResponseWriter) : Option Nat := w.sent.map Prod.fst

/-- The headers of the response, once the header has been written. -/
def sentHeader (w : ResponseWriter) : Option Header := w.sent.map Prod.snd

/-- The statement `w.Header().Set(key, value)`. -/
def HeaderSet (w : ResponseWriter) (key value : String) : ResponseWriter :=
  { w with header := Header.Set w.header key value }

/-- The statement `w.Header().Del(key)`. -/
def HeaderDel (w : ResponseWriter) (key : String) : ResponseWriter :=
  { w with header := Header.Del w.header key }

/-- The Go method `ResponseWriter.WriteHeader`: the first call fixes the status code and
the headers; a later call is superfluous and changes neither. -/
def WriteHeader (w : ResponseWriter) (code : Nat) : ResponseWriter :=
  match w.sent with
  | some _ => { w with ops := w.ops ++ [WriterOp.writeHeader code] }
  | none => { w with sent := some (code, w.header), ops := w.ops ++ [WriterOp.writeHeader code] }

/-- The Go method `ResponseWriter.Write`: when the header has not been written yet it is
written first with status 200; then the bytes are appended to the body, or the error of
the connection is returned. -/
def Write (w : ResponseWriter) (b : String) : ResponseWriter × Option String :=
  let w1 : ResponseWriter :=
    match w.sent with
    | some _ => { w with ops := w.ops ++ [WriterOp.write b] }
    | none => { w with sent := some (200, w.header), ops := w.ops ++ [WriterOp.write b] }
  match w.writeErr with
  | some e => (w1, some e)
  | none => ({ w1 with body := w1.body ++ b }, none)

end ResponseWriter

namespace http

def StatusOK : Nat := 200
def StatusMovedPermanently : Nat := 301
def StatusUnauthorized : Nat := 401
def StatusNotFound : Nat := 404
def StatusMethodNotAllowed : Nat := 405
def StatusInternalServerError : Nat := 500
def MethodGet : String := "GET"

/-- The Go function `http.Error(w, error, code)`: resets the content headers, writes the
header with `code` and prints the message followed by a line feed (`fmt.Fprintln`). -/
def Error (w : ResponseWriter) (error : String) (code : Nat) : ResponseWriter :=
  let w1 := w.HeaderDel "Content-Length"
  let w2 := w1.HeaderSet "Content-Type" "text/plain; charset=utf-8"
  let w3 := w2.HeaderSet "X-Content-Type-Options" "nosniff"
  let w4 := w3.WriteHeader code
  (w4.Write (error ++ "\n")).1

end http

/-! ## Requests, the plugin and its state -/

/-- The fields of the Go type `url.URL` a server request carries.  `Query` is the result of
`r.URL.Query()`, the parsed form of `RawQuery`. -/
structure URL where
  Path : String
  RawQuery : String
  Query : Header
  deriving DecidableEq, Repr

/-- The fields of the Go type `http.Request` the plugin reads. -/
structure Request where
  Method : String
  URL : URL
  Header : Header
  deriving DecidableEq, Repr

/-- A call of the read-state service. -/
inductive Call where
  | markRead (postId userId : String)
  | isRead (postId userId : String)
  deriving DecidableEq, Repr

/-- A record of the host logger: `p.API.LogError(msg, keyValuePairs...)`. -/
structure LogEntry where
  msg : String
  keyValuePairs : List String
  deriving DecidableEq, Repr

/-- What one exchange can change: the persistence store, the calls made to the read-state
service, the host log and the response writer. -/
structure State (σ : Type) where
  store : σ
  calls : List Call
  logs : List LogEntry
  w : ResponseWriter
  deriving DecidableEq, Repr

/-- The Go type `http.Handler`, in state-passing style: `ServeHTTP(w, r)`. -/
abbrev Handler (σ : Type) := Request → State σ → State σ

/-- The read-state service of the plugin, defined outside `server/api.go`:
`markRead(postId, userId)` returns an error (its text) or nil, `isRead(postId, userId)` a
boolean and an error; both act on the persistence store. -/
structure Plugin (σ : Type) where
  markRead : String → String → σ → Option String × σ
  isRead : String → String → σ → (Bool × Option String) × σ

/-- The call `p.markRead(postId, userID)`, recorded in `calls`. -/
def Plugin.callMarkRead {σ : Type} (p : Plugin σ) (postId userID : String) (s : State σ) :
    Option String × State σ :=
  let r := p.markRead postId userID s.store
  (r.1, { s with store := r.2, calls := s.calls ++ [Call.markRead postId userID] })

/-- The call `p.isRead(postId, userID)`, recorded in `calls`. -/
def Plugin.callIsRead {σ : Type} (p : Plugin σ) (postId userID : String) (s : State σ) :
    (Bool × Option String) × State σ :=
  let r := p.isRead postId userID s.store
  (r.1, { s with store := r.2, calls := s.calls ++ [Call.isRead postId userID] })

/-- The Go call `json.Marshal(map[string]bool{"read": read})`. -/
def jsonMarshalRead (read : Bool) : String :=
  "\x7b\"read\":" ++ (if read then "true" else "false") ++ "\x7d"

/-! ## path.Clean -/

namespace path

/-- The elements of a path between its slashes (`strings.Split(p, "/")`). -/
def elements : List Char → List (List Char)
  | [] => [[]]
  | c :: cs =>
    if c = '/' then [] :: elements cs
    else
      match elements cs with
      | [] => [[c]]
      | e :: es => (c :: e) :: es

/-- One element pushed on the elements kept so far (innermost first): an empty element and
`.` are dropped, `..` removes the element before it, is dropped at the root of a rooted
path and is kept otherwise. -/
def push (rooted : Bool) (kept : List (List Char)) (e : List Char) : List (List Char) :=
  if e = [] ∨ e = ['.'] then kept
  else if e = ['.', '.'] then
    match kept with
    | [] => if rooted then [] else [e]
    | k :: ks => if k = ['.', '.'] then e :: k :: ks else ks
  else e :: kept

/-- The Go function `path.Clean`: the shortest path equivalent to `p` by purely lexical
processing. -/
def Clean (p : String) : String :=
  let rooted := p.data.head? = some '/'
  let kept := ((elements p.data).foldl (push rooted) []).reverse
  let out := (if rooted then ['/'] else []) ++ List.intercalate ['/'] kept
  if out = [] then "." else String.mk out

end path

/-! ## gorilla/mux -/

namespace mux

/-- The errors `ErrMethodMismatch` and `ErrNotFound` a match can record. -/
inductive MatchError where
  | ErrMethodMismatch
  | ErrNotFound
  deriving DecidableEq, Repr

/-- The Go type `mux.RouteMatch`: the handler found and the error of the match. -/
structure RouteMatch (H : Type) where
  Handler : Option H
  MatchErr : Option MatchError

/-- The Go interface `mux.matcher`, with the outcome of the type test `m.(methodMatcher)`. -/
structure matcher (H : Type) where
  isMethodMatcher : Bool
  Match : Request → RouteMatch H → Bool × RouteMatch H

/-- The matcher of `PathPrefix(tpl)` for a template without variables: the regular
expression `^tpl` on the request's path. -/
def prefixRegexp {H : Type} (tpl : String) : matcher H :=
  { isMethodMatcher := false
    Match := fun req m => (tpl.data.isPrefixOf req.URL.Path.data, m) }

/-- The matcher of `Path(tpl)` for a template without variables (no strict slash): the
regular expression `^tpl$` on the request's path. -/
def pathRegexp {H : Type} (tpl : String) : matcher H :=
  { isMethodMatcher := false
    Match := fun req m => (decide (req.URL.Path = tpl), m) }

/-- The matcher of `Methods(methods...)`: the request's method is one of `methods`. -/
def methodMatcher {H : Type} (methods : List String) : matcher H :=
  { isMethodMatcher := true
    Match := fun req m => (methods.contains req.Method, m) }

/-- The Go type `mux.Route`: its matchers and its handler (nil for a route that only
carries a subrouter). -/
structure Route (H : Type) where
  matchers : List (matcher H)
  handler : Option H

/-- The loop `for _, m := range r.matchers` of `Route.Match`, on the matchers still to run:
`none` when the loop returned false, otherwise the local `matchErr` after the loop. -/
def matchLoop {H : Type} (req : Request) :
    List (matcher H) → Option MatchError → RouteMatch H → Option (Option MatchError) × RouteMatch H
  | [], matchErr, m => (some matchErr, m)
  | mt :: rest, matchErr, m =>
    let r := mt.Match req m
    if r.1 then
      matchLoop req rest matchErr
        (if r.2.MatchErr = some MatchError.ErrMethodMismatch then { r.2 with MatchErr := none } else r.2)
    else if mt.isMethodMatcher then
      matchLoop req rest (some MatchError.ErrMethodMismatch) r.2
    else
      (none, if r.2.MatchErr = some MatchError.ErrNotFound then { r.2 with MatchErr := none } else r.2)

/-- The Go method `Route.Match`. -/
def Route.Match {H : Type} (rt : Route H) (req : Request) (m : RouteMatch H) :
    Bool × RouteMatch H :=
  match matchLoop req rt.matchers none m with
  | (none, m1) => (false, m1)
  | (some (some e), m1) => (false, { m1 with MatchErr := some e })
  | (some none, m1) =>
    let m2 : RouteMatch H :=
      if m1.MatchErr = some MatchError.ErrMethodMismatch ∧ rt.handler.isSome then
        { Handler := rt.handler, MatchErr := none }
      else m1
    (true, if m2.Handler.isNone then { m2 with Handler := rt.handler } else m2)

/-- The Go type `mux.Router`. -/
structure Router (H : Type) where
  routes : List (Route H)
  middlewares : List (H → H)
  NotFoundHandler : Option H
  MethodNotAllowedHandler : Option H

/-- The loop `for _, route := range r.routes` of `Router.Match` and the code after it. -/
def Router.matchRoutes {H : Type} (r : Router H) (req : Request) :
    List (Route H) → RouteMatch H → Bool × RouteMatch H
  | [], m =>
    if m.MatchErr = some MatchError.ErrMethodMismatch then
      match r.MethodNotAllowedHandler with
      | some h => (true, { m with Handler := some h })
      | none => (false, m)
    else
      match r.NotFoundHandler with
      | some h => (true, { Handler := some h, MatchErr := some MatchError.ErrNotFound })
      | none => (false, { m with MatchErr := some MatchError.ErrNotFound })
  | route :: rest, m =>
    let x := route.Match req m
    if x.1 then
      if x.2.MatchErr = none then
        (true, { x.2 with Handler := x.2.Handler.map (fun h => r.middlewares.foldr (fun mw acc => mw acc) h) })
      else (true, x.2)
    else Router.matchRoutes r req rest x.2

/-- The Go method `Router.Match`: the first route that matches wins, and when the match has
no error its handler is wrapped in the router's middlewares, the first one outermost. -/
def Router.Match {H : Type} (r : Router H) (req : Request) (m : RouteMatch H) :
    Bool × RouteMatch H :=
  Router.matchRoutes r req r.routes m

/-- The Go function `mux.NewRouter`. -/
def NewRouter {H : Type} : Router H :=
  { routes := [], middlewares := [], NotFoundHandler := none, MethodNotAllowedHandler := none }

/-- The Go method `Router.Use`. -/
def Router.Use {H : Type} (r : Router H) (mw : H → H) : Router H :=
  { r with middlewares := r.middlewares ++ [mw] }

/-- The template of a route of a subrouter: `strings.TrimRight(tpl, "/") + path`. -/
def joinTemplate (tpl path : String) : String :=
  String.mk (tpl.data.reverse.dropWhile (fun c => c == '/')).reverse ++ path

/-- The route `sub.HandleFunc(path, f).Methods(methods...)` of a subrouter `sub` made by
`PathPrefix(tpl).Subrouter()`: it inherits the matcher of the prefix. -/
def subrouterRoute {H : Type} (tpl path : String) (f : H) (methods : List String) : Route H :=
  { matchers := [prefixRegexp tpl, pathRegexp (joinTemplate tpl path), methodMatcher methods]
    handler := some f }

/-- The route `r.PathPrefix(tpl)` of a router once `Subrouter()` has been called on it and
the routes `subRoutes` have been registered on that subrouter. -/
def Router.PathPrefixSubrouter {H : Type} (r : Router H) (tpl : String)
    (subRoutes : List (Route H)) : Router H :=
  let sub : Router H :=
    { routes := subRoutes, middlewares := [], NotFoundHandler := none,
      MethodNotAllowedHandler := none }
  { r with routes := r.routes ++
      [{ matchers := [prefixRegexp tpl, { isMethodMatcher := false, Match := sub.Match }],
         handler := none }] }

/-- The function `cleanPath` of mux: the canonical form of a request path. -/
def cleanPath (p : String) : String :=
  if p = "" then "/"
  else
    let p1 := if p.data.head? = some '/' then p else "/" ++ p
    let np := path.Clean p1
    if p1.data.getLast? = some '/' ∧ np ≠ "/" then np ++ "/" else np

/-- The handler mux uses on a method mismatch: `w.WriteHeader(http.StatusMethodNotAllowed)`. -/
def methodNotAllowed {σ : Type} : Handler σ :=
  fun _ s => { s with w := s.w.WriteHeader http.StatusMethodNotAllowed }

end mux

/-- The Go function `http.NotFound`: `Error(w, "404 page not found", StatusNotFound)`. -/
def http.NotFound {σ : Type} : Handler σ :=
  fun _ s => { s with w := http.Error s.w "404 page not found" http.StatusNotFound }

/-- The Go method `Router.ServeHTTP` (with `skipClean` unset): a path that is not in
canonical form is redirected with status 301 to the URL with the cleaned path (rendered here
as that path and the raw query); otherwise the matched handler runs, or the
method-not-allowed handler on a method mismatch, or `http.NotFoundHandler()`. -/
def mux.Router.ServeHTTP {σ : Type} (r : mux.Router (Handler σ)) : Handler σ :=
  fun req s =>
    let p := mux.cleanPath req.URL.Path
    if p ≠ req.URL.Path then
      let url := p ++ (if req.URL.RawQuery = "" then "" else "?" ++ req.URL.RawQuery)
      { s with w := (s.w.HeaderSet "Location" url).WriteHeader http.StatusMovedPermanently }
    else
      let x := r.Match req { Handler := none, MatchErr := none }
      match (if x.1 then x.2.Handler else none) with
      | some handler => handler req s
      | none =>
        if x.2.MatchErr = some mux.MatchError.ErrMethodMismatch then mux.methodNotAllowed req s
        else http.NotFound req s

/-! ## server/api.go -/

/-- The Go method `Plugin.MattermostAuthorizationRequired`. -/
def Plugin.MattermostAuthorizationRequired {σ : Type} (_p : Plugin σ) (next : Handler σ) :
    Handler σ :=
  fun r s =>
    let userID := r.Header.Get "Mattermost-User-ID"
    if userID = "" then
      { s with w := http.Error s.w "Not authorized" http.StatusUnauthorized }
    else
      next r s

/-- The Go method `Plugin.HelloWorld`. -/
def Plugin.HelloWorld {σ : Type} (_p : Plugin σ) : Handler σ :=
  fun _r s =>
    let x := s.w.Write "Hello, world!"
    match x.2 with
    | some err =>
      { s with
        logs := s.logs ++ [{ msg := "Failed to write response", keyValuePairs := ["error", err] }]
        w := http.Error x.1 err http.StatusInternalServerError }
    | none => { s with w := x.1 }

/-- The router of `Plugin.ServeHTTP` when it is served: `mux.NewRouter()` with the
middleware `p.MattermostAuthorizationRequired`, the subrouter `apiRouter` of the prefix
`/api/v1`, and on it the route `/hello` of `p.HelloWorld` for the method GET. -/
def Plugin.router {σ : Type} (p : Plugin σ) : mux.Router (Handler σ) :=
  ((mux.NewRouter).Use p.MattermostAuthorizationRequired).PathPrefixSubrouter "/api/v1"
    [mux.subrouterRoute "/api/v1" "/hello" p.HelloWorld [http.MethodGet]]

/-- The Go method `Plugin.ServeHTTP`. -/
def Plugin.ServeHTTP {σ : Type} (p : Plugin σ) (r : Request) (s : State σ) : State σ :=
  let router := p.router
  let userID := r.Header.Get "Mattermost-User-ID"
  if r.URL.Path = "/read" ∧ r.Method = "POST" then
    let postId := Values.Get r.URL.Query "post_id"
    match p.callMarkRead postId userID s with
    | (some err, s1) => { s1 with w := http.Error s1.w err http.StatusInternalServerError }
    | (none, s1) => router.ServeHTTP r { s1 with w := s1.w.WriteHeader http.StatusOK }
  else if r.URL.Path = "/isread" ∧ r.Method = "GET" then
    let postId := Values.Get r.URL.Query "post_id"
    match p.callIsRead postId userID s with
    | ((_, some err), s1) => { s1 with w := http.Error s1.w err http.StatusInternalServerError }
    | ((read, none), s1) =>
      let b := jsonMarshalRead read
      let w1 := s1.w.HeaderSet "Content-Type" "application/json"
      router.ServeHTTP r { s1 with w := (w1.Write b).1 }
  else
    router.ServeHTTP r s

/-! ## Concrete services and requests -/

/-- An in-memory persistence store: the recorded pairs of a post and a user. -/
abbrev MemStore := List (String × String)

/-- Modelled from the spec: the read-state service (`markRead`, `isRead`), whose code is
outside `server/api.go`, over `MemStore`.  `markRead` records the marker of the pair and is
idempotent; `isRead` is a pure read that is true iff the marker is recorded; neither fails. -/
def memoryPlugin : Plugin MemStore :=
  { markRead := fun postId userId st =>
      (none, if st.contains (postId, userId) then st else st ++ [(postId, userId)])
    isRead := fun postId userId st => ((st.contains (postId, userId), none), st) }

/-- Modelled from the spec: the read-state service when the persistence store reports a
failure (the store error of the error taxonomy): every call fails with the text
`store unavailable` and leaves the store as it is. -/
def failingPlugin : Plugin MemStore :=
  { markRead := fun _ _ st => (some "store unavailable", st)
    isRead := fun _ _ st => ((false, some "store unavailable"), st) }

/-- The state before an exchange: the given store, no call, no log, a fresh writer. -/
def initial (store : MemStore) : State MemStore :=
  { store := store, calls := [], logs := [], w := ResponseWriter.fresh }

/-- A request with the given method and path, the identity header set to `userID` when
there is one, and the query `post_id=postId` when there is one. -/
def request (method path : String) (userID postId : Option String) : Request :=
  { Method := method
    URL :=
      { Path := path
        RawQuery := match postId with
          | some v => "post_id=" ++ v
          | none => ""
        Query := match postId with
          | some v => [("post_id", [v])]
          | none => [] }
    Header := match userID with
      | some u => [("Mattermost-User-Id", [u])]
      | none => [] }

/-- A handler that logs its call and writes nothing, standing for the `next` of a middleware. -/
def markerHandler : Handler MemStore :=
  fun r s => { s with logs := s.logs ++ [{ msg := "next", keyValuePairs := [r.Method, r.URL.Path] }] }

variable {σ : Type}

/-! ## The response writer -/

theorem Error_status_of_unsent (w : ResponseWriter) (e : String) (c : Nat) (h : w.sent = none) :
    (http.Error w e c).status = some c := by
  cases he : w.writeErr <;>
  simp [http.Error, ResponseWriter.Write, ResponseWriter.WriteHeader, ResponseWriter.HeaderSet,
    ResponseWriter.HeaderDel, ResponseWriter.status, h, he]

theorem Error_sent_of_sent (w : ResponseWriter) (e : String) (c : Nat) (x : Nat × Header)
    (h : w.sent = some x) : (http.Error w e c).sent = some x := by
  cases he : w.writeErr <;>
  simp [http.Error, ResponseWriter.Write, ResponseWriter.WriteHeader, ResponseWriter.HeaderSet,
    ResponseWriter.HeaderDel, h, he]

theorem Error_body (w : ResponseWriter) (e : String) (c : Nat) (h : w.writeErr = none) :
    (http.Error w e c).body = w.body ++ (e ++ "\n") := by
  cases hs : w.sent <;>
  simp [http.Error, ResponseWriter.Write, ResponseWriter.WriteHeader, ResponseWriter.HeaderSet,
    ResponseWriter.HeaderDel, h, hs]

theorem Error_ops (w : ResponseWriter) (e : String) (c : Nat) :
    (http.Error w e c).ops = w.ops ++ [WriterOp.writeHeader c, WriterOp.write (e ++ "\n")] := by
  cases hs : w.sent <;> cases he : w.writeErr <;>
  simp [http.Error, ResponseWriter.Write, ResponseWriter.WriteHeader, ResponseWriter.HeaderSet,
    ResponseWriter.HeaderDel, hs, he]

theorem empty_append (t : String) : "" ++ t = t := by
  apply String.ext
  simp

/-! ## The router of the plugin -/

theorem joinTemplate_hello : mux.joinTemplate "/api/v1" "/hello" = "/api/v1/hello" := by decide

theorem hello_under_api :
    ("/api/v1" : String).data.isPrefixOf ("/api/v1/hello" : String).data = true := by decide

theorem cleanPath_hello : mux.cleanPath "/api/v1/hello" = "/api/v1/hello" := by decide

theorem cleanPath_read : mux.cleanPath "/read" = "/read" := by decide

theorem cleanPath_isread : mux.cleanPath "/isread" = "/isread" := by decide

/-- On GET `/api/v1/hello` the router runs the identity gate around `HelloWorld`. -/
theorem router_hello_get (p : Plugin σ) (r : Request)
    (hp : r.URL.Path = "/api/v1/hello") (hm : r.Method = "GET") (s : State σ) :
    p.router.ServeHTTP r s = p.MattermostAuthorizationRequired p.HelloWorld r s := by
  simp [mux.Router.ServeHTTP, hp, cleanPath_hello, Plugin.router, mux.Router.Match,
    mux.Router.matchRoutes, mux.Route.Match, mux.matchLoop, mux.Router.PathPrefixSubrouter,
    mux.Router.Use, mux.NewRouter, mux.subrouterRoute, mux.prefixRegexp, mux.pathRegexp,
    mux.methodMatcher, joinTemplate_hello, hello_under_api, hm, http.MethodGet]

/-- On `/api/v1/hello` with another method the router answers with its method-not-allowed
handler; the identity gate is not run. -/
theorem router_hello_other (p : Plugin σ) (r : Request)
    (hp : r.URL.Path = "/api/v1/hello") (hm : r.Method ≠ "GET") (s : State σ) :
    p.router.ServeHTTP r s = mux.methodNotAllowed r s := by
  simp [mux.Router.ServeHTTP, hp, cleanPath_hello, Plugin.router, mux.Router.Match,
    mux.Router.matchRoutes, mux.Route.Match, mux.matchLoop, mux.Router.PathPrefixSubrouter,
    mux.Router.Use, mux.NewRouter, mux.subrouterRoute, mux.prefixRegexp, mux.pathRegexp,
    mux.methodMatcher, joinTemplate_hello, hello_under_api, hm, http.MethodGet]

/-- On a canonical path other than `/api/v1/hello` the router answers with
`http.NotFound`; the identity gate is not run. -/
theorem router_not_found (p : Plugin σ) (r : Request)
    (hc : mux.cleanPath r.URL.Path = r.URL.Path)
    (hp : r.URL.Path ≠ "/api/v1/hello") (s : State σ) :
    p.router.ServeHTTP r s = http.NotFound r s := by
  cases hb : ("/api/v1" : String).data.isPrefixOf r.URL.Path.data <;>
  simp [mux.Router.ServeHTTP, hp, hc, Plugin.router, mux.Router.Match,
    mux.Router.matchRoutes, mux.Route.Match, mux.matchLoop, mux.Router.PathPrefixSubrouter,
    mux.Router.Use, mux.NewRouter, mux.subrouterRoute, mux.prefixRegexp, mux.pathRegexp,
    mux.methodMatcher, joinTemplate_hello, hb, http.MethodGet]

/-- A request outside the two branches of the switch goes to the router unchanged. -/
theorem ServeHTTP_outside_switch (p : Plugin σ) (r : Request) (s : State σ)
    (h1 : ¬ (r.URL.Path = "/read" ∧ r.Method = "POST"))
    (h2 : ¬ (r.URL.Path = "/isread" ∧ r.Method = "GET")) :
    p.ServeHTTP r s = p.router.ServeHTTP r s := by
  simp only [Plugin.ServeHTTP, if_neg h1, if_neg h2]

/-! ## C1 -/

/-- C1 (counterexample): a GET request for `/nothing` without the identity header is
answered with status 404, not 401. -/
theorem C1_counterexample :
    (request "GET" "/nothing" none none).Header.Get "Mattermost-User-ID" = "" ∧
    (memoryPlugin.ServeHTTP (request "GET" "/nothing" none none) (initial [])).w.status
      = some 404 ∧
    (memoryPlugin.ServeHTTP (request "GET" "/nothing" none none) (initial [])).w.status
      ≠ some 401 := by
  decide

/-- C1 (amended): for a request whose identity header is absent or empty, whose path is in
canonical form and which is not one of the two requests of the switch (POST `/read`,
GET `/isread`), the status is 401 when the request matches the one route of the router,
GET `/api/v1/hello`; it is 405 for another method on `/api/v1/hello` and 404 for any other
path, on which the router does not run the identity gate. -/
theorem C1_unauthenticated_status (p : Plugin σ) (r : Request) (s : State σ)
    (hu : r.Header.Get "Mattermost-User-ID" = "") (hw : s.w.sent = none)
    (hc : mux.cleanPath r.URL.Path = r.URL.Path)
    (h1 : ¬ (r.URL.Path = "/read" ∧ r.Method = "POST"))
    (h2 : ¬ (r.URL.Path = "/isread" ∧ r.Method = "GET")) :
    (p.ServeHTTP r s).w.status =
      some (if r.URL.Path = "/api/v1/hello" then (if r.Method = "GET" then 401 else 405)
        else 404) := by
  rw [ServeHTTP_outside_switch p r s h1 h2]
  by_cases hp : r.URL.Path = "/api/v1/hello"
  · by_cases hm : r.Method = "GET"
    · rw [router_hello_get p r hp hm, if_pos hp, if_pos hm]
      simp only [Plugin.MattermostAuthorizationRequired, hu, if_true]
      exact Error_status_of_unsent _ _ _ hw
    · rw [router_hello_other p r hp hm, if_pos hp, if_neg hm]
      simp [mux.methodNotAllowed, ResponseWriter.WriteHeader, ResponseWriter.status, hw,
        http.StatusMethodNotAllowed]
  · rw [router_not_found p r hc hp, if_neg hp]
    exact Error_status_of_unsent _ _ _ hw

/-- C1 (witness): GET `/api/v1/hello` without the identity header, on the in-memory service, is answered with status 401. -/
theorem C1_unauthenticated_status_witness :
    (memoryPlugin.ServeHTTP (request "GET" "/api/v1/hello" none none) (initial [])).w.status
      = some 401 :=
  C1_unauthenticated_status memoryPlugin (request "GET" "/api/v1/hello" none none) (initial [])
    (by decide) (by decide) (by decide) (by decide) (by decide)

/-! ## C2 -/

/-- C2 (the code at the failing input): on POST `/read?post_id=P1` without the identity
header `markRead` is invoked, with the empty user identifier, and the store changes. -/
theorem C2_markRead_runs_unauthenticated :
    (request "POST" "/read" none (some "P1")).Header.Get "Mattermost-User-ID" = "" ∧
    (memoryPlugin.ServeHTTP (request "POST" "/read" none (some "P1")) (initial [])).calls
      = [Call.markRead "P1" ""] ∧
    (memoryPlugin.ServeHTTP (request "POST" "/read" none (some "P1")) (initial [])).store
      = [("P1", "")] := by
  decide

/-! ## C3 -/

/-- C3 (the code at the failing input): on POST `/read?post_id=P1` with the identity
header `alice` and a `markRead` that succeeds, the status is 200 and the body is the
not-found page of the router, not empty. -/
theorem C3_markRead_success_body :
    (memoryPlugin.ServeHTTP (request "POST" "/read" (some "alice") (some "P1")) (initial [])).w.status
      = some 200 ∧
    (memoryPlugin.ServeHTTP (request "POST" "/read" (some "alice") (some "P1")) (initial [])).w.body
      = "404 page not found\n" := by
  decide

/-! ## C4 -/

/-- C4 (the code at the failing input): on GET `/isread?post_id=P1` with the identity
header `alice` and the marker recorded, the status is 200 and the content type
`application/json`, and the body is the JSON object followed by the not-found page of the
router. -/
theorem C4_isRead_success_body :
    (memoryPlugin.ServeHTTP (request "GET" "/isread" (some "alice") (some "P1"))
      (initial [("P1", "alice")])).w.sent
      = some (200, [("Content-Type", ["application/json"])]) ∧
    (memoryPlugin.ServeHTTP (request "GET" "/isread" (some "alice") (some "P1"))
      (initial [("P1", "alice")])).w.body
      = "\x7b\"read\":true\x7d404 page not found\n" := by
  decide

/-! ## C5 -/

/-- C5: when `markRead` fails with `e` on a POST `/read` request, or `isRead` fails with `e`
on a GET `/isread` request, the response writer is left as `http.Error(w, e, 500)` leaves
it and the router is not served: on a writer not yet written to the status is 500, the
body is `e` followed by a line feed, and the only calls on the writer are the
`WriteHeader(500)` and the `Write` of `http.Error`. -/
theorem C5_store_error (p : Plugin σ) (r : Request) (s : State σ) (e : String)
    (h : (r.URL.Path = "/read" ∧ r.Method = "POST" ∧
          (p.markRead (Values.Get r.URL.Query "post_id") (r.Header.Get "Mattermost-User-ID")
            s.store).1 = some e) ∨
         (r.URL.Path = "/isread" ∧ r.Method = "GET" ∧
          (p.isRead (Values.Get r.URL.Query "post_id") (r.Header.Get "Mattermost-User-ID")
            s.store).1.2 = some e)) :
    (p.ServeHTTP r s).w = http.Error s.w e 500 ∧
    (p.ServeHTTP r s).w.ops = s.w.ops ++ [WriterOp.writeHeader 500, WriterOp.write (e ++ "\n")] ∧
    (s.w.sent = none → (p.ServeHTTP r s).w.status = some 500) ∧
    (s.w.writeErr = none → (p.ServeHTTP r s).w.body = s.w.body ++ (e ++ "\n")) := by
  have hw : (p.ServeHTTP r s).w = http.Error s.w e 500 := by
    rcases h with ⟨hp, hm, he⟩ | ⟨hp, hm, he⟩
    · simp only [Plugin.ServeHTTP, hp, hm, Plugin.callMarkRead, he, and_self, if_true,
        http.StatusInternalServerError]
    · have h1 : ¬ (r.URL.Path = "/read" ∧ r.Method = "POST") := by
        rw [hp]
        exact fun h0 => absurd h0.1 (by decide)
      rcases hx : p.isRead (Values.Get r.URL.Query "post_id")
        (r.Header.Get "Mattermost-User-ID") s.store with ⟨⟨b, oe⟩, st⟩
      rw [hx] at he
      simp only at he
      subst he
      rw [Plugin.ServeHTTP, if_neg h1]
      simp only [hp, hm, Plugin.callIsRead, hx, and_self, if_true,
        http.StatusInternalServerError]
  rw [hw]
  exact ⟨rfl, Error_ops _ _ _, fun h0 => Error_status_of_unsent _ _ _ h0,
    fun h0 => Error_body _ _ _ h0⟩

/-- C5 (witness): with the store down, POST `/read` and GET `/isread` are answered with status 500 and the body `store unavailable` followed by a line feed. -/
theorem C5_store_error_witness :
    ((failingPlugin.ServeHTTP (request "POST" "/read" (some "alice") (some "P1")) (initial [])).w.status
        = some 500 ∧
      (failingPlugin.ServeHTTP (request "POST" "/read" (some "alice") (some "P1")) (initial [])).w.body
        = "store unavailable\n") ∧
    ((failingPlugin.ServeHTTP (request "GET" "/isread" (some "alice") (some "P1")) (initial [])).w.status
        = some 500 ∧
      (failingPlugin.ServeHTTP (request "GET" "/isread" (some "alice") (some "P1")) (initial [])).w.body
        = "store unavailable\n") :=
  ⟨⟨(C5_store_error failingPlugin (request "POST" "/read" (some "alice") (some "P1")) (initial [])
        "store unavailable" (Or.inl (by decide))).2.2.1 (by decide),
    (C5_store_error failingPlugin (request "POST" "/read" (some "alice") (some "P1")) (initial [])
        "store unavailable" (Or.inl (by decide))).2.2.2 (by decide)⟩,
   ⟨(C5_store_error failingPlugin (request "GET" "/isread" (some "alice") (some "P1")) (initial [])
        "store unavailable" (Or.inr (by decide))).2.2.1 (by decide),
    (C5_store_error failingPlugin (request "GET" "/isread" (some "alice") (some "P1")) (initial [])
        "store unavailable" (Or.inr (by decide))).2.2.2 (by decide)⟩⟩

/-! ## C6 -/

/-- C6 (counterexample): a GET request for `/read` with the identity header `alice` is
answered with status 404 and the body `404 page not found`, which is not empty. -/
theorem C6_counterexample :
    (request "GET" "/read" (some "alice") none).Header.Get "Mattermost-User-ID" = "alice" ∧
    (memoryPlugin.ServeHTTP (request "GET" "/read" (some "alice") none) (initial [])).w.status
      = some 404 ∧
    (memoryPlugin.ServeHTTP (request "GET" "/read" (some "alice") none) (initial [])).w.body
      = "404 page not found\n" ∧
    (memoryPlugin.ServeHTTP (request "GET" "/read" (some "alice") none) (initial [])).w.body
      ≠ "" := by
  decide

/-- C6 (amended): for a request with a non-empty identity header, a path in canonical form
and a (method, path) pair that is none of (POST, `/read`), (GET, `/isread`),
(GET, `/api/v1/hello`), on a writer not yet written to: a path other than `/api/v1/hello`
is answered with status 404 and the body `404 page not found` followed by a line feed;
another method on `/api/v1/hello` is answered with status 405 and an empty body. -/
theorem C6_unmatched_response (p : Plugin σ) (r : Request) (s : State σ)
    (_hu : r.Header.Get "Mattermost-User-ID" ≠ "")
    (hs : s.w.sent = none) (hb : s.w.body = "") (he : s.w.writeErr = none)
    (hc : mux.cleanPath r.URL.Path = r.URL.Path)
    (h1 : ¬ (r.URL.Path = "/read" ∧ r.Method = "POST"))
    (h2 : ¬ (r.URL.Path = "/isread" ∧ r.Method = "GET"))
    (h3 : ¬ (r.URL.Path = "/api/v1/hello" ∧ r.Method = "GET")) :
    (r.URL.Path ≠ "/api/v1/hello" →
      (p.ServeHTTP r s).w.status = some 404 ∧
      (p.ServeHTTP r s).w.body = "404 page not found\n") ∧
    (r.URL.Path = "/api/v1/hello" →
      (p.ServeHTTP r s).w.status = some 405 ∧ (p.ServeHTTP r s).w.body = "") := by
  rw [ServeHTTP_outside_switch p r s h1 h2]
  constructor
  · intro hp
    rw [router_not_found p r hc hp]
    refine ⟨Error_status_of_unsent _ _ _ hs, ?_⟩
    show (http.Error s.w "404 page not found" http.StatusNotFound).body = _
    rw [Error_body _ _ _ he, hb, empty_append]
    decide
  · intro hp
    have hm : r.Method ≠ "GET" := fun h0 => h3 ⟨hp, h0⟩
    rw [router_hello_other p r hp hm]
    simp [mux.methodNotAllowed, ResponseWriter.WriteHeader, ResponseWriter.status, hs, hb,
      http.StatusMethodNotAllowed]

/-- C6 (witness): DELETE `/isread` is answered with 404 and the not-found page, POST `/api/v1/hello` with 405 and an empty body. -/
theorem C6_unmatched_response_witness :
    ((memoryPlugin.ServeHTTP (request "DELETE" "/isread" (some "alice") none) (initial [])).w.status
        = some 404 ∧
      (memoryPlugin.ServeHTTP (request "DELETE" "/isread" (some "alice") none) (initial [])).w.body
        = "404 page not found\n") ∧
    ((memoryPlugin.ServeHTTP (request "POST" "/api/v1/hello" (some "alice") none) (initial [])).w.status
        = some 405 ∧
      (memoryPlugin.ServeHTTP (request "POST" "/api/v1/hello" (some "alice") none) (initial [])).w.body
        = "") :=
  ⟨(C6_unmatched_response memoryPlugin (request "DELETE" "/isread" (some "alice") none) (initial [])
      (by decide) (by decide) (by decide) (by decide) (by decide) (by decide) (by decide)
      (by decide)).1 (by decide),
   (C6_unmatched_response memoryPlugin (request "POST" "/api/v1/hello" (some "alice") none)
      (initial []) (by decide) (by decide) (by decide) (by decide) (by decide) (by decide)
      (by decide) (by decide)).2 (by decide)⟩

/-! ## C7 -/

/-- C7 (the code at the failing input): on POST `/read?post_id=P7` with the identity header
`bob` and a `markRead` that succeeds, the writer receives the `WriteHeader(200)` of the
markRead branch and then the `WriteHeader(404)` and the `Write` of the router's not-found
handler. -/
theorem C7_double_write :
    (memoryPlugin.ServeHTTP (request "POST" "/read" (some "bob") (some "P7")) (initial [])).w.ops
      = [WriterOp.writeHeader 200, WriterOp.writeHeader 404,
         WriterOp.write "404 page not found\n"] := by
  decide

/-! ## C8 -/

/-- C8: the identity gate `MattermostAuthorizationRequired(next)`.  When the identity header
is absent or empty it replies `http.Error(w, "Not authorized", 401)` whatever `next` is, so
`next` is not invoked: on a writer not yet written to the status is 401 and the body is the
text `Not authorized` with the line feed of `http.Error`.  Otherwise its effect is exactly
that of `next` on the same request and the same state: `next` runs once and the gate writes
nothing. -/
theorem C8_identity_gate (p : Plugin σ) (next : Handler σ) (r : Request) (s : State σ)
    (hs : s.w.sent = none) (hb : s.w.body = "") (he : s.w.writeErr = none) :
    (r.Header.Get "Mattermost-User-ID" = "" →
      (∀ other : Handler σ, p.MattermostAuthorizationRequired next r s
        = p.MattermostAuthorizationRequired other r s) ∧
      p.MattermostAuthorizationRequired next r s
        = { s with w := http.Error s.w "Not authorized" 401 } ∧
      (p.MattermostAuthorizationRequired next r s).w.status = some 401 ∧
      (p.MattermostAuthorizationRequired next r s).w.body = "Not authorized\n" ∧
      (p.MattermostAuthorizationRequired next r s).w.ops
        = s.w.ops ++ [WriterOp.writeHeader 401, WriterOp.write "Not authorized\n"]) ∧
    (r.Header.Get "Mattermost-User-ID" ≠ "" →
      p.MattermostAuthorizationRequired next r s = next r s) := by
  constructor
  · intro hu
    have hg : ∀ other : Handler σ, p.MattermostAuthorizationRequired other r s
        = { s with w := http.Error s.w "Not authorized" 401 } := by
      intro other
      simp only [Plugin.MattermostAuthorizationRequired, hu, if_true, http.StatusUnauthorized]
    refine ⟨fun other => by rw [hg next, hg other], hg next, ?_, ?_, ?_⟩
    · rw [hg next]
      exact Error_status_of_unsent _ _ _ hs
    · rw [hg next]
      show (http.Error s.w "Not authorized" 401).body = _
      rw [Error_body _ _ _ he, hb, empty_append]
      decide
    · rw [hg next]
      show (http.Error s.w "Not authorized" 401).ops = _
      rw [Error_ops]
      rfl
  · intro hu
    simp only [Plugin.MattermostAuthorizationRequired, hu, if_false]

/-- C8 (witness): without the identity header the gate answers 401 with `Not authorized`; with the header `alice` it behaves as the handler it wraps. -/
theorem C8_identity_gate_witness :
    ((memoryPlugin.MattermostAuthorizationRequired markerHandler
        (request "GET" "/api/v1/hello" none none) (initial [])).w.status = some 401 ∧
      (memoryPlugin.MattermostAuthorizationRequired markerHandler
        (request "GET" "/api/v1/hello" none none) (initial [])).w.body = "Not authorized\n") ∧
    memoryPlugin.MattermostAuthorizationRequired markerHandler
        (request "GET" "/api/v1/hello" (some "alice") none) (initial [])
      = markerHandler (request "GET" "/api/v1/hello" (some "alice") none) (initial []) :=
  ⟨⟨((C8_identity_gate memoryPlugin markerHandler (request "GET" "/api/v1/hello" none none)
        (initial []) (by decide) (by decide) (by decide)).1 (by decide)).2.2.1,
    ((C8_identity_gate memoryPlugin markerHandler (request "GET" "/api/v1/hello" none none)
        (initial []) (by decide) (by decide) (by decide)).1 (by decide)).2.2.2.1⟩,
   (C8_identity_gate memoryPlugin markerHandler (request "GET" "/api/v1/hello" (some "alice") none)
      (initial []) (by decide) (by decide) (by decide)).2 (by decide)⟩

/-! ## C9 -/

/-- C9: on GET `/api/v1/hello` with a non-empty identity header, on a writer not yet written
to whose writes succeed, the status is 200 and the body is exactly `Hello, world!`, written
by one `Write`; neither `markRead` nor `isRead` is called, and the store and the log are
unchanged. -/
theorem C9_hello (p : Plugin σ) (r : Request) (s : State σ)
    (hp : r.URL.Path = "/api/v1/hello") (hm : r.Method = "GET")
    (hu : r.Header.Get "Mattermost-User-ID" ≠ "")
    (hs : s.w.sent = none) (hb : s.w.body = "") (he : s.w.writeErr = none) :
    (p.ServeHTTP r s).w.status = some 200 ∧
    (p.ServeHTTP r s).w.body = "Hello, world!" ∧
    (p.ServeHTTP r s).w.ops = s.w.ops ++ [WriterOp.write "Hello, world!"] ∧
    (p.ServeHTTP r s).calls = s.calls ∧
    (p.ServeHTTP r s).store = s.store ∧
    (p.ServeHTTP r s).logs = s.logs := by
  have h1 : ¬ (r.URL.Path = "/read" ∧ r.Method = "POST") := by
    rw [hp]
    exact fun h0 => absurd h0.1 (by decide)
  have h2 : ¬ (r.URL.Path = "/isread" ∧ r.Method = "GET") := by
    rw [hp]
    exact fun h0 => absurd h0.1 (by decide)
  rw [ServeHTTP_outside_switch p r s h1 h2, router_hello_get p r hp hm]
  simp only [Plugin.MattermostAuthorizationRequired, hu, if_false]
  simp [Plugin.HelloWorld, ResponseWriter.Write, ResponseWriter.status, hs, hb, he, empty_append]

/-- C9 (witness): GET `/api/v1/hello` with the identity header `alice` is answered with status 200 and the body `Hello, world!`. -/
theorem C9_hello_witness :
    (memoryPlugin.ServeHTTP (request "GET" "/api/v1/hello" (some "alice") none) (initial [])).w.status
      = some 200 ∧
    (memoryPlugin.ServeHTTP (request "GET" "/api/v1/hello" (some "alice") none) (initial [])).w.body
      = "Hello, world!" :=
  ⟨(C9_hello memoryPlugin (request "GET" "/api/v1/hello" (some "alice") none) (initial [])
      (by decide) (by decide) (by decide) (by decide) (by decide) (by decide)).1,
   (C9_hello memoryPlugin (request "GET" "/api/v1/hello" (some "alice") none) (initial [])
      (by decide) (by decide) (by decide) (by decide) (by decide) (by decide)).2.1⟩

/-! ## C10 -/

theorem canonical_user_id :
    CanonicalMIMEHeaderKey "Mattermost-User-ID" = "Mattermost-User-Id" := by decide

/-- C10: on POST `/read` the dispatcher calls `markRead(postId, userId)` and on GET `/isread`
it calls `isRead(postId, userId)`, once and with no other call of the service, where
`userId` is `r.Header.Get("Mattermost-User-ID")`, the first value of the identity header
as it is, and `postId` is `r.URL.Query().Get("post_id")`, the first value of `post_id` as it
is, or the empty string when `post_id` is absent.  The store after the exchange is the one the
call returned, and on a writer not yet written to the status is 200 when the call succeeds
and 500 when it fails, also when `post_id` is absent. -/
theorem C10_verbatim_identifiers (p : Plugin σ) (r : Request) (s : State σ)
    (hs : s.w.sent = none) :
    (r.URL.Path = "/read" ∧ r.Method = "POST" →
      (p.ServeHTTP r s).calls = s.calls ++
        [Call.markRead (Values.Get r.URL.Query "post_id") (r.Header.Get "Mattermost-User-ID")] ∧
      (p.ServeHTTP r s).store =
        (p.markRead (Values.Get r.URL.Query "post_id") (r.Header.Get "Mattermost-User-ID")
          s.store).2 ∧
      (p.ServeHTTP r s).w.status = some
        (if (p.markRead (Values.Get r.URL.Query "post_id") (r.Header.Get "Mattermost-User-ID")
          s.store).1 = none then 200 else 500)) ∧
    (r.URL.Path = "/isread" ∧ r.Method = "GET" →
      (p.ServeHTTP r s).calls = s.calls ++
        [Call.isRead (Values.Get r.URL.Query "post_id") (r.Header.Get "Mattermost-User-ID")] ∧
      (p.ServeHTTP r s).store =
        (p.isRead (Values.Get r.URL.Query "post_id") (r.Header.Get "Mattermost-User-ID")
          s.store).2 ∧
      (p.ServeHTTP r s).w.status = some
        (if (p.isRead (Values.Get r.URL.Query "post_id") (r.Header.Get "Mattermost-User-ID")
          s.store).1.2 = none then 200 else 500)) ∧
    (lookupValues "post_id" r.URL.Query = [] → Values.Get r.URL.Query "post_id" = "") ∧
    (∀ v vs, lookupValues "post_id" r.URL.Query = v :: vs →
      Values.Get r.URL.Query "post_id" = v) ∧
    (∀ v vs, lookupValues "Mattermost-User-Id" r.Header = v :: vs →
      r.Header.Get "Mattermost-User-ID" = v) := by
  refine ⟨?_, ?_, ?_, ?_, ?_⟩
  · rintro ⟨hp, hm⟩
    have hc : mux.cleanPath r.URL.Path = r.URL.Path := by rw [hp]; exact cleanPath_read
    have hn : r.URL.Path ≠ "/api/v1/hello" := by rw [hp]; decide
    rcases hx : p.markRead (Values.Get r.URL.Query "post_id")
      (r.Header.Get "Mattermost-User-ID") s.store with ⟨oe, st⟩
    cases oe with
    | some e =>
      simp only [Plugin.ServeHTTP, hp, hm, Plugin.callMarkRead, hx, and_self, if_true]
      refine ⟨trivial, trivial, ?_⟩
      exact Error_status_of_unsent _ _ _ hs
    | none =>
      simp only [Plugin.ServeHTTP, hp, hm, Plugin.callMarkRead, hx, and_self, if_true]
      rw [router_not_found p r hc hn]
      refine ⟨rfl, rfl, ?_⟩
      simp [http.NotFound, ResponseWriter.status, ResponseWriter.WriteHeader, hs,
        Error_sent_of_sent _ _ _ (http.StatusOK, s.w.header), http.StatusOK]
  · rintro ⟨hp, hm⟩
    have h1 : ¬ (r.URL.Path = "/read" ∧ r.Method = "POST") := by
      rw [hp]
      exact fun h0 => absurd h0.1 (by decide)
    have hc : mux.cleanPath r.URL.Path = r.URL.Path := by rw [hp]; exact cleanPath_isread
    have hn : r.URL.Path ≠ "/api/v1/hello" := by rw [hp]; decide
    rcases hx : p.isRead (Values.Get r.URL.Query "post_id")
      (r.Header.Get "Mattermost-User-ID") s.store with ⟨⟨b, oe⟩, st⟩
    rw [Plugin.ServeHTTP, if_neg h1]
    cases oe with
    | some e =>
      simp only [hp, hm, Plugin.callIsRead, hx, and_self, if_true]
      refine ⟨trivial, trivial, ?_⟩
      exact Error_status_of_unsent _ _ _ hs
    | none =>
      simp only [hp, hm, Plugin.callIsRead, hx, and_self, if_true]
      rw [router_not_found p r hc hn]
      refine ⟨rfl, rfl, ?_⟩
      cases he : s.w.writeErr <;>
      simp [http.NotFound, ResponseWriter.status, ResponseWriter.Write,
        ResponseWriter.HeaderSet, hs, he,
        Error_sent_of_sent _ _ _ (200, Header.Set s.w.header "Content-Type" "application/json")]
  · intro h
    simp [Values.Get, h]
  · intro v vs h
    simp [Values.Get, h]
  · intro v vs h
    simp [Header.Get, Values.Get, canonical_user_id, h]

/-- C10 (witness): POST `/read` without `post_id` calls `markRead("", "alice")` and is answered with status 200; GET `/isread?post_id=P1` calls `isRead("P1", "alice")`. -/
theorem C10_verbatim_identifiers_witness :
    (memoryPlugin.ServeHTTP (request "POST" "/read" (some "alice") none) (initial [])).calls
      = [Call.markRead "" "alice"] ∧
    (memoryPlugin.ServeHTTP (request "POST" "/read" (some "alice") none) (initial [])).w.status
      = some 200 ∧
    (memoryPlugin.ServeHTTP (request "GET" "/isread" (some "alice") (some "P1")) (initial [])).calls
      = [Call.isRead "P1" "alice"] :=
  ⟨((C10_verbatim_identifiers memoryPlugin (request "POST" "/read" (some "alice") none)
      (initial []) (by decide)).1 (by decide)).1,
   ((C10_verbatim_identifiers memoryPlugin (request "POST" "/read" (some "alice") none)
      (initial []) (by decide)).1 (by decide)).2.2,
   ((C10_verbatim_identifiers memoryPlugin (request "GET" "/isread" (some "alice") (some "P1"))
      (initial []) (by decide)).2.1 (by decide)).1⟩

end ReadReceipts
